import Mathlib

/-!
# Verification of the minio FS object layer and GCS gateway spec claims

Shallow embedding of `cmd/fs-v1.go`, the multipart-completion path of
`cmd/gateway/gcs/gateway-gcs.go`, and the startup config validator, together
with proofs settling the frozen claims about them.

File contents of the repository are embedded as pure Lean functions; fallible
Go code becomes `Except`-valued functions; the outcomes of external effects
(disk stats, lock acquisition, stream reads) are passed in explicitly as
oracle records so that every control path of the source is represented.
-/

namespace Minio

/-! ## Common data model

Abstract file contents are represented by natural numbers (a `Nat` stands for
one particular byte string); what the claims need is only equality and
presence/absence of files.
-/

deriving instance DecidableEq for Except

/-- Error type covering both the low-level errors of `cmd/posix-errors` /
`pkg/lock` and the S3-level object API errors they are mapped to by
`toObjectErr`.  Constructors named after the Go errors that the embedded
code paths can produce. -/
inductive ObjErr where
  | volumeNotFound       -- errVolumeNotFound
  | bucketNotFound       -- BucketNotFound{}
  | bucketNameInvalid    -- BucketNameInvalid{}
  | noSuchKey            -- ObjectNotFound{}
  | fileNotFound         -- errFileNotFound
  | fileAccessDenied     -- errFileAccessDenied
  | invalidArgument      -- errInvalidArgument
  | incompleteBody       -- IncompleteBody{}
  | objectAlreadyExists  -- ObjectAlreadyExists{} (WORM)
  | corruptedFormat      -- errCorruptedFormat
  | eofError             -- io.EOF
  | operationTimedOut    -- OperationTimedOut{}
  | otherErr             -- any other I/O error, mapped or not
  deriving DecidableEq, Repr

/-- The `defaultEtag` variable of `cmd/fs-v1.go` line 41, used for
pre-existing objects that have no `fs.json` sidecar. -/
def defaultEtag : String := "00000000000000000000000000000000-1"

/-! ### String helpers

Go's `strings.HasPrefix` / `strings.HasSuffix` and splitting on `/` are
re-implemented by structural recursion over character lists (the library
versions use position arithmetic that the kernel cannot evaluate). -/

/-- Character-list core of Go `strings.HasPrefix`. -/
def hasPrefixCl : List Char → List Char → Bool
  | _, [] => true
  | [], _ :: _ => false
  | c :: cs, p :: ps => c = p && hasPrefixCl cs ps

/-- Go `strings.HasPrefix` (= the minio `hasPrefix` helper on posix). -/
def hasPrefixStr (s pre : String) : Bool :=
  hasPrefixCl s.data pre.data

/-- Go `strings.HasSuffix` (= the minio `hasSuffix` helper on posix). -/
def hasSuffixStr (s suf : String) : Bool :=
  hasPrefixCl s.data.reverse suf.data.reverse

/-- Splitting a character list on `/` (Go `strings.Split(s, "/")`). -/
def splitSlash : List Char → List Char → List String
  | [], acc => [String.mk acc.reverse]
  | c :: rest, acc =>
    if c = '/' then String.mk acc.reverse :: splitSlash rest []
    else splitSlash rest (c :: acc)

/-- Joining segments with `/`. -/
def joinSlash : List String → String
  | [] => ""
  | [x] => x
  | x :: y :: xs => x ++ "/" ++ joinSlash (y :: xs)

/-! ### `pathJoin` (cmd/common-main / utils) and Go's `path.Join`

`pathJoin(elem...)` joins the elements with `/`, runs Go `path.Clean`
lexically, and restores a trailing slash when the last element had one.
Cleaning is segment-wise: empty and `.` segments are dropped and `..` pops
the previous segment (kept literally at the head of a relative path). -/

/-- One step of Go `path.Clean` over the already-processed (reversed) list of
segments. -/
def cleanStep (acc : List String) (seg : String) : List String :=
  if seg = "" ∨ seg = "." then acc
  else if seg = ".." then
    match acc with
    | [] => [".."]
    | a :: rest => if a = ".." then ".." :: a :: rest else rest
  else seg :: acc

/-- Go `path.Clean` restricted to relative paths (bucket/object paths never
start with `/`). -/
def pathClean (s : String) : String :=
  let segs := (splitSlash s.data []).foldl cleanStep []
  let out := joinSlash segs.reverse
  if out = "" then "." else out

/-- minio `pathJoin` on two elements: Go `path.Join` plus preservation of a
trailing slash of the last element.  Empty input on both sides yields `""`
as Go `path.Join` does. -/
def pathJoin (a b : String) : String :=
  let trailingSlash := if hasSuffixStr b "/" then "/" else ""
  if a = "" ∧ b = "" then ""
  else pathClean (a ++ "/" ++ b) ++ trailingSlash

/-! ## C1 — `putObject` (`cmd/fs-v1.go` lines 815-949)

State visible to one `PutObject` call: the bucket directory, the data file at
`<export>/<bucket>/<key>`, the sidecar `fs.json` of the key, and the
temporary file `<meta-tmp>/<serverUUID>/<tempObj>` of this call (its name is a
fresh UUID, so it does not exist before the call). -/

structure FsState where
  /-- the bucket directory exists (`fsStatVolume` outcome of `statBucketDir`) -/
  bucketExists : Bool
  /-- content of the data file at the object key, `none` if absent -/
  dataFile : Option Nat
  /-- content of the `fs.json` sidecar for the key, `none` if absent -/
  sidecar : Option Nat
  /-- content of this call's temp file under `<meta-tmp>/<serverUUID>/` -/
  tmpFile : Option Nat
  deriving DecidableEq, Repr

/-- Call arguments of `putObject` that decide its control flow. -/
structure PutArgs where
  /-- Whether `bucket == minioMetaBucket` -/
  isMetaBucket : Bool
  /-- the object key ends with the slash separator -/
  objectEndsSlash : Bool
  /-- Declared size `data.Size()` given by the caller -/
  dataSize : Int
  /-- content that a complete write of the stream produces -/
  content : Nat
  /-- serialized `fsMeta` (user metadata plus computed etag) -/
  userMeta : Nat
  deriving DecidableEq, Repr

/-- Oracle for the outcomes of the fallible primitives `putObject` invokes,
in source order. -/
structure PutEnv where
  /-- Outcome of `checkPutObjectArgs` (line 850) -/
  argsOk : Bool
  /-- Outcome of `fs.parentDirIsObject` (lines 835 and 855) -/
  parentIsObject : Bool
  /-- Outcome of `mkdirAll` for a directory object (line 839) -/
  mkdirOk : Bool
  /-- Outcome of `fsStatDir` after the mkdir (line 844) -/
  statDirOk : Bool
  /-- Outcome of `fs.rwPool.Create fsMetaPath` (line 871) -/
  createSidecarOk : Bool
  /-- bytes written by `fsCreateFile` (line 900); `none` is an I/O error -/
  writeTmpBytes : Option Nat
  /-- Outcome of `fsRenameFile` temp → namespace path (line 930) -/
  renameOk : Bool
  /-- Outcome of `fsMeta.WriteTo wlk` (line 936) -/
  writeMetaOk : Bool
  /-- final `fsStatFile` (line 942) -/
  statFileOk : Bool
  /-- Value of `globalWORMEnabled` (line 925) -/
  wormEnabled : Bool
  /-- Value of `isCompressed(fsMeta.Meta)` (line 911) -/
  compressed : Bool
  deriving DecidableEq, Repr

/-- Predicate `isObjectDir` (cmd/object-api-utils): the key denotes a directory object
when it has a trailing slash and declared size zero. -/
def isObjectDir (endsSlash : Bool) (size : Int) : Bool :=
  endsSlash && size == 0

/-- The deferred cleanup registered at lines 878-884: when `putObject`
returns an error and the bucket is not the meta bucket, `fsRemoveMeta`
removes the `fs.json` that was opened with `Create`. -/
def metaCleanup (isMeta : Bool) (s : FsState) : FsState :=
  if isMeta then s else { s with sidecar := none }

/-- Stage `renamed → sidecar-written → done` of `putObject` (fs-v1.go
934-948), entered with the data file renamed into place and the temp file
gone: persist `fs.json` through the held write lock, then stat the final
file.  Failures here are not rolled back beyond the deferred meta
removal. -/
def putObjectPersistMeta (a : PutArgs) (e : PutEnv) (s : FsState) :
    FsState × Except ObjErr Unit :=
  -- lines 934-939: fsMeta.WriteTo wlk
  if !a.isMetaBucket && !e.writeMetaOk then
    (metaCleanup a.isMetaBucket s, .error .otherErr)
  else
    let s4 := if a.isMetaBucket then s
              else { s with sidecar := some a.userMeta }
    -- line 942: final fsStatFile
    if !e.statFileOk then (metaCleanup a.isMetaBucket s4, .error .otherErr)
    else (s4, .ok ())

/-- Stage `temp-written → renamed` of `putObject` (fs-v1.go 920-932),
entered with the temp file fully written: the deferred temp removal is
registered, WORM is enforced, and the temp is atomically renamed to
`<export>/<bucket>/<key>`. -/
def putObjectRename (a : PutArgs) (e : PutEnv) (s : FsState) :
    FsState × Except ObjErr Unit :=
  -- lines 924-929: deny if WORM is enabled and the data file exists
  if e.wormEnabled && s.dataFile.isSome then
    (metaCleanup a.isMetaBucket { s with tmpFile := none },
     .error .objectAlreadyExists)
  -- line 930: fsRenameFile; the deferred fsRemoveFile(temp) fires on error
  else if !e.renameOk then
    (metaCleanup a.isMetaBucket { s with tmpFile := none },
     .error .otherErr)
  else
    putObjectPersistMeta a e
      { s with dataFile := some a.content, tmpFile := none }

/-- Stage `locked → temp-written` of `putObject` (fs-v1.go 887-916): stream
the body into the temp file under `<meta-tmp>/<serverUUID>/`, removing it
again on a write error or a short body. -/
def putObjectWriteTemp (a : PutArgs) (e : PutEnv) (s : FsState) :
    FsState × Except ObjErr Unit :=
  match e.writeTmpBytes with
  | none =>
      -- lines 900-904: fsCreateFile failed; fsRemoveFile of the temp, then
      -- the deferred meta removal fires on return
      (metaCleanup a.isMetaBucket { s with tmpFile := none },
       .error .otherErr)
  | some written =>
      -- lines 908-916: IncompleteBody on short body (compression disabled)
      if !e.compressed && (written : Int) < a.dataSize then
        (metaCleanup a.isMetaBucket { s with tmpFile := none },
         .error .incompleteBody)
      else putObjectRename a e { s with tmpFile := some a.content }

/-- Shallow embedding of `putObject` (fs-v1.go 815-949).  Returns the state
after the call (all deferred cleanups applied) and the call's outcome. -/
def putObject (a : PutArgs) (e : PutEnv) (s : FsState) :
    FsState × Except ObjErr Unit :=
  -- line 824: statBucketDir
  if !s.bucketExists then (s, .error .bucketNotFound)
  -- lines 833-848: directory object special case
  else if isObjectDir a.objectEndsSlash a.dataSize then
    if e.parentIsObject then (s, .error .fileAccessDenied)
    else if !e.mkdirOk then (s, .error .otherErr)
    else if !e.statDirOk then (s, .error .otherErr)
    else (s, .ok ())
  -- line 850: checkPutObjectArgs
  else if !e.argsOk then (s, .error .invalidArgument)
  -- line 855: parentDirIsObject
  else if e.parentIsObject then (s, .error .fileAccessDenied)
  -- line 861: negative declared size
  else if a.dataSize < 0 then (s, .error .invalidArgument)
  -- lines 866-885: create (or open) the sidecar under exclusive lock,
  -- registering the deferred fsRemoveMeta for the error paths below
  else if !a.isMetaBucket && !e.createSidecarOk then (s, .error .otherErr)
  else
    putObjectWriteTemp a e
      (if a.isMetaBucket then s
       else { s with sidecar := some (s.sidecar.getD 0) })

/-- Wrapper `PutObject` (fs-v1.go 800-812): argument check and object write lock
around `putObject`. -/
def PutObjectOp (wrapperArgsOk lockOk : Bool) (a : PutArgs) (e : PutEnv)
    (s : FsState) : FsState × Except ObjErr Unit :=
  if !wrapperArgsOk then (s, .error .invalidArgument)
  else if !lockOk then (s, .error .operationTimedOut)
  else putObject a e s

/-! ## C2 / C3 — `CopyObject` (`cmd/fs-v1.go` lines 411-496)

The metadata of an `fs.json` sidecar is a Go `map[string]string`; it is
represented as an association list with last-write-wins assignment. -/

/-- Go map read `m[k]`. -/
def mapGet (m : List (String × String)) (k : String) : Option String :=
  (m.find? (fun p => p.1 = k)).map (fun p => p.2)

/-- Go map assignment `m[k] = v`. -/
def mapSet (m : List (String × String)) (k v : String) :
    List (String × String) :=
  (k, v) :: m.eraseP (fun p => p.1 = k)

/-- The caller-visible fields of `srcInfo : ObjectInfo` that the
`CopyObject` code path reads. -/
structure CopySrcInfo where
  metadataOnly : Bool
  userDefined : List (String × String)
  etag : String
  deriving DecidableEq, Repr

/-- State visible to the metadata-only branch of `CopyObject`: the source
bucket directory, the data file at the key, and the parsed sidecar meta. -/
structure CopyMetaState where
  srcBucketExists : Bool
  /-- content of the data file at `<export>/<bucket>/<key>` -/
  dataFile : Option Nat
  /-- Parsed `meta` mapping of the key's `fs.json`; `none` when no sidecar file -/
  sidecarMeta : Option (List (String × String))
  deriving DecidableEq, Repr

/-- Oracle for the fallible primitives of the metadata-only branch. -/
structure CopyMetaEnv where
  /-- Outcome of `fs.rwPool.Write fsMetaPath` once the file exists (line 446);
  a missing `fs.json` makes `Write` fail with `errFileNotFound` -/
  writeLockOk : Bool
  /-- Outcome of the `fsMeta.ReadFrom` parse of the existing sidecar (line 456) -/
  readOk : Bool
  /-- Outcome of `fsMeta.WriteTo wlk` (line 462) -/
  writeOk : Bool
  deriving DecidableEq, Repr

/-- Shallow embedding of the `cpSrcDstSame && srcInfo.metadataOnly` branch of
`CopyObject` (fs-v1.go 437-474), entered after the destination write lock is
held.  Returns the post state and, on success, the etag of the returned
`ObjectInfo`. -/
def copyObjectMetadataOnly (src : CopySrcInfo) (e : CopyMetaEnv)
    (s : CopyMetaState) : CopyMetaState × Except ObjErr String :=
  -- line 437: statBucketDir on the source bucket
  if !s.srcBucketExists then (s, .error .bucketNotFound)
  else
    match s.sidecarMeta with
    | none => (s, .error .noSuchKey)   -- rwPool.Write: errFileNotFound, mapped
    | some _ =>
      if !e.writeLockOk then (s, .error .otherErr)
      else if !e.readOk then (s, .error .corruptedFormat)
      else
        -- lines 460-461: fsMeta.Meta = srcInfo.UserDefined;
        --                fsMeta.Meta["etag"] = srcInfo.ETag
        let newMeta := mapSet src.userDefined "etag" src.etag
        if !e.writeOk then (s, .error .otherErr)
        else
          let s1 := { s with sidecarMeta := some newMeta }
          -- line 467: fsStatFile on the data file
          match s1.dataFile with
          | none => (s1, .error .noSuchKey)
          | some _ =>
            -- line 473: fsMeta.ToObjectInfo — ETag read from the meta map,
            -- a Go map read of a missing key yielding the empty string
            (s1, .ok ((mapGet newMeta "etag").getD ""))

/-- A namespace-lock acquisition event: kind of lock and the `(bucket,
object)` key it is taken on. -/
inductive LockEvt where
  | wLock (bucket object : String)
  | rLock (bucket object : String)
  deriving DecidableEq, Repr

/-- The `(bucket, object)` key of a lock event. -/
def LockEvt.key : LockEvt → String × String
  | .wLock b o => (b, o)
  | .rLock b o => (b, o)

/-- Lock-acquisition sequence of `CopyObject` (fs-v1.go 414-436), assuming
both acquisitions succeed: the destination write lock is taken first, and a
source read lock is added only when the joined source and destination paths
differ (`cpSrcDstSame`, line 415). -/
def copyObjectLockTrace (srcBucket srcObject dstBucket dstObject : String) :
    List LockEvt :=
  let cpSrcDstSame :=
    pathJoin srcBucket srcObject == pathJoin dstBucket dstObject
  [LockEvt.wLock dstBucket dstObject] ++
    (if cpSrcDstSame then [] else [LockEvt.rLock srcBucket srcObject])

/-- The lock keys of a trace are acquired consistently with an order
relation `r`: consecutive acquisitions go up in `r`. -/
def acquiredInOrder (r : String × String → String × String → Prop)
    (tr : List LockEvt) : Prop :=
  tr.Chain' (fun e1 e2 => r e1.key e2.key)

/-! ## C4 / C10 — `ListObjects` (`cmd/fs-v1.go` lines 1092-1218) -/

/-- Modelled from the spec: the constant `maxObjectList`
(cmd/object-api-common.go, not under src/) is 1000 (§4.5). -/
def maxObjectList : Int := 1000

/-- One value received from the tree-walk result channel (spec §3 "Walk
result"): either an entry (with the outcome of `entryToObjectInfo` for it and
the `end` flag of the walk) or a walk error. -/
inductive WalkItem where
  | entry (name : String) (isDir : Bool) (infoOk : Bool) (endFlag : Bool)
  | errItem (isFileNotFound : Bool)
  deriving DecidableEq, Repr

/-- Result record `ListObjectsInfo` restricted to the fields the embedded
code writes. -/
structure ListObjectsInfo where
  isTruncated : Bool := false
  nextMarker : String := ""
  objects : List String := []
  prefixes : List String := []
  deriving DecidableEq, Repr

/-- Oracle for one `ListObjects` call. -/
structure ListEnv where
  /-- outcome of `checkListObjsArgs` (line 1095, helper not under src/) -/
  argsOk : Bool
  /-- outcome of `statBucketDir` (line 1105) -/
  bucketExists : Bool
  /-- the stream of values the walker will deliver on `walkResultCh`;
  after the list is exhausted the channel is closed -/
  walk : List WalkItem
  deriving Repr

/-- Outcome of the consumption loop (lines 1172-1198): either an early
`return` from inside the loop, or the collected `objInfos` plus `eof`. -/
inductive LoopOut where
  | abort (res : Except ObjErr ListObjectsInfo)
  | done (objInfos : List (String × Bool)) (eof : Bool)
  deriving Repr

/-- The `for i := 0; i < maxKeys;` consumption loop (lines 1172-1198).  A
walk error of `errFileNotFound`, or an `entryToObjectInfo` failure, makes the
whole call return the zero-value `ListObjectsInfo` with a nil error; another
walk error is returned via `toObjectErr`; a closed channel or the `end` flag
sets `eof`. -/
def listLoop : Nat → List WalkItem → LoopOut
  | 0, _ => .done [] false
  | _ + 1, [] => .done [] true
  | n + 1, item :: rest =>
    match item with
    | .errItem fnf =>
        if fnf then .abort (.ok {}) else .abort (.error .otherErr)
    | .entry name isDir infoOk endFlag =>
        if !infoOk then .abort (.ok {})
        else if endFlag then .done [(name, isDir)] true
        else
          match listLoop n rest with
          | .abort r => .abort r
          | .done l eof => .done ((name, isDir) :: l) eof

/-- Building the result (lines 1206-1214): `NextMarker` tracks every entry;
directory entries become common prefixes when the delimiter is `/`. -/
def buildListResult (delim : String) (objInfos : List (String × Bool))
    (eof : Bool) : ListObjectsInfo :=
  objInfos.foldl
    (fun r p =>
      let r1 := { r with nextMarker := p.1 }
      if p.2 && delim == "/" then
        { r1 with prefixes := r1.prefixes ++ [p.1] }
      else
        { r1 with objects := r1.objects ++ [p.1] })
    { isTruncated := !eof }

/-- Shallow embedding of `ListObjects` (fs-v1.go 1094-1218).  `pfx` is the
listing prefix parameter. -/
def listObjects (e : ListEnv) (pfx marker delim : String) (maxKeys : Int) :
    Except ObjErr ListObjectsInfo :=
  -- line 1095: checkListObjsArgs
  if !e.argsOk then .error .invalidArgument
  -- lines 1098-1104: a marker that does not share the prefix returns an
  -- empty response with the (nil) named error
  else if marker ≠ "" && !(hasPrefixStr marker pfx) then .ok {}
  -- line 1105: statBucketDir
  else if !e.bucketExists then .error .bucketNotFound
  -- lines 1109-1112: max keys of zero means eof
  else if maxKeys == 0 then .ok {}
  -- lines 1114-1121: delimiter and prefix both the slash separator
  else if delim = "/" && pfx = "/" then .ok {}
  else
    -- lines 1123-1126: overflowing count resets to maxObjectList
    let mk := if maxKeys < 0 ∨ maxKeys > maxObjectList then maxObjectList
              else maxKeys
    match listLoop mk.toNat e.walk with
    | .abort r => r
    | .done objInfos eof => .ok (buildListResult delim objInfos eof)

/-! ## C5 — `GetObjectInfo` (`cmd/fs-v1.go` lines 646-774) -/

/-- The sidecar fields `ToObjectInfo` reads for these claims. -/
structure FsMeta where
  etag : String
  contentType : Option String
  deriving DecidableEq, Repr

/-- Go `path.Ext`: the suffix of the last slash-separated element starting at
its final dot, or the empty string. -/
def pathExt (s : String) : String :=
  let rec go : List Char → List Char → String
    | [], _ => ""
    | c :: rest, acc =>
      if c = '/' then ""
      else if c = '.' then String.mk (c :: acc)
      else go rest (c :: acc)
  go s.data.reverse []

/-- Modelled from the spec: the embedded MIME table `pkg/mimedb` (not under
src/) maps lowercase file extensions to content types (§3); a small
representative table. -/
def mimeLookup (ext : String) : Option String :=
  if ext = "txt" then some "text/plain"
  else if ext = "html" then some "text/html"
  else if ext = "json" then some "application/json"
  else if ext = "png" then some "image/png"
  else none

/-- Content-type inference shared by `createFsJSON` (lines 651-657) and
`defaultFsJSON` (lines 672-678): only a key with a non-empty extension gets a
content type, defaulting to `application/octet-stream` when the extension is
not in the MIME table. -/
def inferContentType (object : String) : Option String :=
  let objectExt := pathExt object
  if objectExt ≠ "" then
    match mimeLookup ((objectExt.drop 1).toLower) with
    | some ct => some ct
    | none => some "application/octet-stream"
  else none

/-- Modelled from the spec: `GenETag` (cmd/object-api-utils.go) is not under
src/; the spec's `GetObjectInfo` recovery path (§4.4) recreates the sidecar
"using default etag", so the generated etag is modelled as `defaultEtag`. -/
def GenETag : String := defaultEtag

/-- The metadata written by `createFsJSON` (fs-v1.go 647-665) when the
existing `fs.json` is corrupt. -/
def createFsJSONMeta (object : String) : FsMeta :=
  { etag := GenETag, contentType := inferContentType object }

/-- The default metadata `defaultFsJSON` (fs-v1.go 668-680) used when a
pre-existing object has no sidecar. -/
def defaultFsJSON (object : String) : FsMeta :=
  { etag := defaultEtag, contentType := inferContentType object }

/-- Outcome of opening and parsing the `fs.json` sidecar in
`getObjectInfo` (lines 701-709). -/
inductive SidecarRead where
  /-- no sidecar file: `rwPool.Open` fails with `errFileNotFound` -/
  | absent
  /-- another `rwPool.Open` failure -/
  | openFailed (e : ObjErr)
  /-- the file opened but `fsMeta.ReadFrom` failed (corrupt, empty, ...) -/
  | parseFailed (e : ObjErr)
  /-- a successfully parsed sidecar -/
  | parsed (m : FsMeta)
  deriving DecidableEq, Repr

/-- State and oracle outcomes visible to one `GetObjectInfo` call. -/
structure GetInfoState where
  /-- outcome of `checkGetObjArgs` (line 740, helper not under src/) -/
  argsOk : Bool
  /-- outcome of `statBucketDir` (line 744) -/
  bucketExists : Bool
  /-- size of the data file at the key, `none` when `fsStatFile` fails -/
  dataFileSize : Option Nat
  /-- outcome of `fsIsDir` / `fsStatDir` on the key path (line 687) -/
  isDirAtKey : Bool
  /-- outcome of `fs.isObjectDir` (line 748): existing empty directory -/
  emptyDirAtKey : Bool
  /-- state of the sidecar file -/
  sidecarFile : SidecarRead
  deriving DecidableEq, Repr

/-- Object info assembled by `fsMeta.ToObjectInfo`. -/
structure ObjInfoRes where
  etag : String
  contentType : Option String
  size : Nat
  isDir : Bool
  deriving DecidableEq, Repr

/-- Shallow embedding of `getObjectInfo` (fs-v1.go 683-729).  Errors are the
raw low-level errors; the wrapper applies `toObjectErr`. -/
def getObjectInfo (st : GetInfoState) (object : String) :
    Except ObjErr ObjInfoRes :=
  -- lines 685-695: directory objects
  if hasSuffixStr object "/" then
    if !st.isDirAtKey then .error .fileNotFound
    else .ok { etag := "", contentType := none, size := 0, isDir := true }
  else
    match st.sidecarFile with
    | .parseFailed rerr => .error rerr                  -- line 707
    | .openFailed e => .error e                         -- line 717-720
    | .parsed m =>
        match st.dataFileSize with                      -- line 723
        | none => .error .fileNotFound
        | some sz =>
            .ok { etag := m.etag, contentType := m.contentType,
                  size := sz, isDir := false }
    | .absent =>                                        -- lines 712-714
        match st.dataFileSize with
        | none => .error .fileNotFound
        | some sz =>
            .ok { etag := (defaultFsJSON object).etag,
                  contentType := (defaultFsJSON object).contentType,
                  size := sz, isDir := false }

/-- Shallow embedding of `getObjectInfoWithLock` (fs-v1.go 732-753). -/
def getObjectInfoWithLock (rLockOk : Bool) (st : GetInfoState)
    (object : String) : Except ObjErr ObjInfoRes :=
  if !rLockOk then .error .operationTimedOut
  else if !st.argsOk then .error .invalidArgument
  else if !st.bucketExists then .error .bucketNotFound
  else if hasSuffixStr object "/" && !st.emptyDirAtKey then .error .fileNotFound
  else getObjectInfo st object

/-- Modelled from the spec: `toObjectErr(err, bucket, object)`
(cmd/object-api-errors.go, not under src/) maps low-level errors at the
object-layer boundary (§4.4): volume-not-found becomes `BucketNotFound`,
file-not-found on an object becomes `NoSuchKey`; other errors pass
through. -/
def toObjectErrBO : ObjErr → ObjErr
  | .volumeNotFound => .bucketNotFound
  | .fileNotFound => .noSuchKey
  | e => e

/-- Modelled from the spec: `toObjectErr(err, bucket)` with only a bucket
parameter maps volume-not-found to `BucketNotFound` and leaves the rest
unchanged (§4.4). -/
def toObjectErrB : ObjErr → ObjErr
  | .volumeNotFound => .bucketNotFound
  | e => e

/-- Lock-acquisition kinds recorded by `GetObjectInfoOp`. -/
inductive LockAcq where
  | readLock
  | writeLock
  deriving DecidableEq, Repr

/-- Oracle for the lock acquisitions and the sidecar rewrite of
`GetObjectInfo`. -/
structure GetObjInfoEnv where
  /-- first `GetRLock` inside `getObjectInfoWithLock` (line 735) -/
  rLockOk : Bool
  /-- escalation `GetLock` (line 760) -/
  wLockOk : Bool
  /-- outcome of `fs.rwPool.Create` inside `createFsJSON` (line 658) -/
  createOk : Bool
  /-- second `GetRLock` for the re-read (line 771 via line 735) -/
  rLock2Ok : Bool
  deriving DecidableEq, Repr

/-- Shallow embedding of `GetObjectInfo` (fs-v1.go 756-774): on
`errCorruptedFormat` or `io.EOF` from the locked read, escalate to the object
write lock, recreate `fs.json` via `createFsJSON`, and re-read.  Returns the
final sidecar state, the call outcome, and the successful lock acquisitions
in order. -/
def GetObjectInfoOp (e : GetObjInfoEnv) (st : GetInfoState) (object : String) :
    GetInfoState × Except ObjErr ObjInfoRes × List LockAcq :=
  let first := getObjectInfoWithLock e.rLockOk st object
  let tr1 := if e.rLockOk then [LockAcq.readLock] else []
  match first with
  | .ok v => (st, .ok v, tr1)
  | .error err =>
    if err = .corruptedFormat ∨ err = .eofError then
      if !e.wLockOk then (st, .error (toObjectErrBO .operationTimedOut), tr1)
      else if !e.createOk then
        (st, .error (toObjectErrBO .otherErr), tr1 ++ [LockAcq.writeLock])
      else
        let st1 := { st with
                     sidecarFile := .parsed (createFsJSONMeta object) }
        let second := getObjectInfoWithLock e.rLock2Ok st1 object
        (st1,
         (match second with
          | .ok v => .ok v
          | .error e2 => .error (toObjectErrBO e2)),
         tr1 ++ [LockAcq.writeLock] ++
           (if e.rLock2Ok then [LockAcq.readLock] else []))
    else (st, .error (toObjectErrBO err), tr1)

/-! ## C9 — bucket-name resolution (`cmd/fs-v1.go` lines 267-288)

Each FS operation is embedded here up to and including its bucket
resolution.  The Boolean returned alongside the outcome records whether any
path under the export root was touched (statted, read, or written) before
the operation returned. -/

/-- Modelled from the spec: `IsValidBucketName` (cmd/bucket-handlers /
pkg/s3utils, not under src/) enforces the S3 rules of §3: 3-63 characters,
lowercase DNS-safe characters, not beginning with a dash or a dot. -/
def isValidBucketName (b : String) : Bool :=
  decide (3 ≤ b.length) && decide (b.length ≤ 63) &&
  b.data.all (fun c => c.isLower || c.isDigit || c = '-' || c = '.') &&
  (match b.data with
   | [] => false
   | c :: _ => c.isLower || c.isDigit)

/-- Shallow embedding of `getBucketDir` (fs-v1.go 270-276): the empty name,
`.` and `..` yield `errVolumeNotFound` before any path is formed. -/
def getBucketDir (fsPath bucket : String) : Except ObjErr String :=
  if bucket = "" ∨ bucket = "." ∨ bucket = ".." then .error .volumeNotFound
  else .ok (pathJoin fsPath bucket)

/-- Shallow embedding of `statBucketDir` (fs-v1.go 278-288), also reporting
whether `fsStatVolume` was reached (i.e. a path under the export was
touched). -/
def statBucketDirT (dirExists : Bool) (fsPath bucket : String) :
    Except ObjErr String × Bool :=
  match getBucketDir fsPath bucket with
  | .error e => (.error e, false)
  | .ok d => (if dirExists then .ok d else .error .volumeNotFound, true)

/-- Modelled from the spec: the argument-check helpers `checkPutObjectArgs`,
`checkGetObjArgs`, `checkDelObjArgs` and `checkListObjsArgs`
(cmd/object-api-input-checks.go, not under src/) validate bucket existence
first, through the object layer's `GetBucketInfo`, so that operations on a
missing bucket fail with `BucketNotFound` (§7) before object-name checks. -/
def checkArgsBucketExist (dirExists : Bool) (fsPath bucket : String) :
    Except ObjErr Unit × Bool :=
  match statBucketDirT dirExists fsPath bucket with
  | (.error e, t) => (.error (toObjectErrB e), t)
  | (.ok _, t) => (.ok (), t)

/-- Resolution prefix of `MakeBucketWithLocation` (fs-v1.go 292-314): lock,
S3 name validation, `getBucketDir`, then the mkdir. -/
def makeBucketResolve (lockOk mkdirOk : Bool) (fsPath bucket : String) :
    Except ObjErr Unit × Bool :=
  if !lockOk then (.error .operationTimedOut, false)
  else if !(isValidBucketName bucket) then (.error .bucketNameInvalid, false)
  else
    match getBucketDir fsPath bucket with
    | .error e => (.error (toObjectErrB e), false)
    | .ok _ =>
        if mkdirOk then (.ok (), true) else (.error .otherErr, true)

/-- Resolution prefix of `GetBucketInfo` (fs-v1.go 317-334). -/
def getBucketInfoResolve (lockOk dirExists : Bool) (fsPath bucket : String) :
    Except ObjErr Unit × Bool :=
  if !lockOk then (.error .operationTimedOut, false)
  else
    match statBucketDirT dirExists fsPath bucket with
    | (.error e, t) => (.error (toObjectErrB e), t)
    | (.ok _, t) => (.ok (), t)

/-- Resolution prefix of `DeleteBucket` (fs-v1.go 380-407): the bucket
directory is resolved before `fsRemoveDir` runs. -/
def deleteBucketResolve (lockOk : Bool) (fsPath bucket : String) :
    Except ObjErr Unit × Bool :=
  if !lockOk then (.error .operationTimedOut, false)
  else
    match getBucketDir fsPath bucket with
    | .error e => (.error (toObjectErrB e), false)
    | .ok _ => (.ok (), true)

/-- Resolution prefix of `PutObject` (fs-v1.go 800-824):
`checkPutObjectArgs`, the object write lock, then `statBucketDir` inside
`putObject`. -/
def putObjectResolve (lockOk dirExists : Bool) (fsPath bucket : String) :
    Except ObjErr Unit × Bool :=
  match checkArgsBucketExist dirExists fsPath bucket with
  | (.error e, t) => (.error e, t)
  | (.ok _, t) =>
      if !lockOk then (.error .operationTimedOut, t)
      else
        match statBucketDirT dirExists fsPath bucket with
        | (.error e, t2) => (.error (toObjectErrB e), t || t2)
        | (.ok _, t2) => (.ok (), t || t2)

/-- Resolution prefix of `GetObject` (fs-v1.go 504-516 and 563-566):
`checkGetObjArgs`, the object read lock, then `statBucketDir` inside
`getObject`. -/
def getObjectResolve (lockOk dirExists : Bool) (fsPath bucket : String) :
    Except ObjErr Unit × Bool :=
  putObjectResolve lockOk dirExists fsPath bucket

/-- Resolution prefix of `GetObjectInfo` (fs-v1.go 732-746): the object read
lock, `checkGetObjArgs`, then `statBucketDir`. -/
def getObjectInfoResolve (lockOk dirExists : Bool) (fsPath bucket : String) :
    Except ObjErr Unit × Bool :=
  if !lockOk then (.error .operationTimedOut, false)
  else
    match checkArgsBucketExist dirExists fsPath bucket with
    | (.error e, t) => (.error e, t)
    | (.ok _, t) =>
        match statBucketDirT dirExists fsPath bucket with
        | (.error e, t2) => (.error (toObjectErrB e), t || t2)
        | (.ok _, t2) => (.ok (), t || t2)

/-- Resolution prefix of `DeleteObject` (fs-v1.go 953-967): the object write
lock, `checkDelObjArgs`, then `statBucketDir`, all before any unlink. -/
def deleteObjectResolve (lockOk dirExists : Bool) (fsPath bucket : String) :
    Except ObjErr Unit × Bool :=
  getObjectInfoResolve lockOk dirExists fsPath bucket

/-- Resolution prefix of `ListObjects` (fs-v1.go 1094-1106):
`checkListObjsArgs`, the marker precondition, then `statBucketDir`. -/
def listObjectsResolve (dirExists : Bool) (fsPath bucket pfx marker : String) :
    Except ObjErr Unit × Bool :=
  match checkArgsBucketExist dirExists fsPath bucket with
  | (.error e, t) => (.error e, t)
  | (.ok _, t) =>
      if marker ≠ "" && !(hasPrefixStr marker pfx) then (.ok (), t)
      else
        match statBucketDirT dirExists fsPath bucket with
        | (.error e, t2) => (.error e, t || t2)
        | (.ok _, t2) => (.ok (), t || t2)

end Minio

namespace Gcs

/-! ## C6 / C7 — `CompleteMultipartUpload`
(`cmd/gateway/gcs/gateway-gcs.go` lines 1011-1131) -/

/-- Contents of the `gcs.json` sidecar (`gcsMultipartMetaV1`, lines
226-231). -/
structure MultipartMetaV1 where
  version : String
  bucket : String
  object : String
  deriving DecidableEq, Repr

/-- The `gcs.json` schema version constant (line 71). -/
def gcsMinioMultipartMetaCurrentVersion : String := "1"

/-- Maximum component count of one GCS compose (line 79). -/
def gcsMaxComponents : Nat := 32

/-- The `humanize.MiByte` constant. -/
def miByte : Int := 1048576

/-- Errors produced by the embedded `CompleteMultipartUpload` path.
`gcsFormatErr` is `errGCSFormat` ("Unknown format", line 57), which
`gcsToObjectError` returns verbatim because it is neither a storage-sentinel
message nor a `googleapi.Error` (lines 240-283). -/
inductive GcsErr where
  | invalidUploadID (uploadID : String)
  | gcsFormatErr
  | partTooSmall (partNumber : Nat) (size : Int) (etag : String)
  | attrsErr
  | readerErr
  | decodeErr
  | composeErr
  | cleanupErr
  | slicePanic
  deriving DecidableEq, Repr

/-- Modelled from the spec: the S3 error code assigned to each object-layer
error by the API layer (§7): `PartTooSmall` surfaces as `EntityTooSmall`,
`InvalidUploadID` as the upload-not-found code, and unhandled errors as
`InternalError`. -/
def s3Code : GcsErr → String
  | .invalidUploadID _ => "NoSuchUpload"
  | .partTooSmall _ _ _ => "EntityTooSmall"
  | _ => "InternalError"

/-- Outcome of a GCS `Attrs` call. -/
inductive AttrsRes where
  /-- attributes fetched; the size they report -/
  | ok (size : Int)
  /-- the "storage: object doesn't exist" error -/
  | notFound
  /-- any other error -/
  | failed
  deriving DecidableEq, Repr

/-- Oracle for one `CompleteMultipartUpload` call. -/
structure CmuEnv where
  /-- attrs of the `gcs.json` sidecar object (line 1023) -/
  metaAttrs : AttrsRes
  /-- opening the sidecar reader (line 1029) -/
  readerOk : Bool
  /-- the decoded sidecar JSON (line 1038); `none` is a decode error -/
  decoded : Option MultipartMetaV1
  /-- attrs of each part object, by part number and etag (line 1061) -/
  partAttrs : Nat → String → AttrsRes
  /-- the compose operations (lines 1098-1124) -/
  composeOk : Bool
  /-- `cleanupMultipartUpload` (line 1126) -/
  cleanupOk : Bool

/-- Fetching the stored size of every supplied part, in order (lines
1056-1067); a missing part maps to `InvalidUploadID` through
`gcsToObjectError` with the upload-id parameter. -/
def fetchPartSizes (env : CmuEnv) (uploadID : String) :
    List (Nat × String) → Except GcsErr (List Int)
  | [] => .ok []
  | (pn, et) :: rest =>
    match env.partAttrs pn et with
    | .notFound => .error (.invalidUploadID uploadID)
    | .failed => .error .attrsErr
    | .ok sz =>
        match fetchPartSizes env uploadID rest with
        | .error e => .error e
        | .ok szs => .ok (sz :: szs)

/-- The `for i, size := range partSizes[:len(partSizes)-1]` check (lines
1069-1084): the first non-last part smaller than 5 MiB, if any, paired with
its part number and etag. -/
def firstSmallPart : List (Int × Nat × String) → Option (Nat × Int × String)
  | [] => none
  | (sz, pn, et) :: rest =>
      if sz < 5 * miByte then some (pn, sz, et) else firstSmallPart rest

/-- Result of `CompleteMultipartUpload`: the outcome and whether the final
object was composed. -/
structure CmuResult where
  res : Except GcsErr Unit
  finalComposed : Bool
  deriving Repr

/-- Shallow embedding of `CompleteMultipartUpload` (gateway-gcs.go
1019-1131).  `uploadedParts` is the supplied `(partNumber, etag)` list. -/
def completeMultipartUpload (env : CmuEnv) (bucket key uploadID : String)
    (uploadedParts : List (Nat × String)) : CmuResult :=
  -- line 1023: attrs of gcs.json; a missing sidecar maps to InvalidUploadID
  match env.metaAttrs with
  | .notFound => { res := .error (.invalidUploadID uploadID),
                   finalComposed := false }
  | .failed => { res := .error .attrsErr, finalComposed := false }
  | .ok _ =>
  if !env.readerOk then { res := .error .readerErr, finalComposed := false }
  else
    match env.decoded with
    | none => { res := .error .decodeErr, finalComposed := false }
    | some m =>
      -- lines 1044-1047: version compatibility, errGCSFormat on mismatch
      if m.version ≠ gcsMinioMultipartMetaCurrentVersion then
        { res := .error .gcsFormatErr, finalComposed := false }
      -- lines 1049-1053: bucket/object consistency, InvalidUploadID
      else if m.bucket ≠ bucket ∨ m.object ≠ key then
        { res := .error (.invalidUploadID uploadID), finalComposed := false }
      else
        match fetchPartSizes env uploadID uploadedParts with
        | .error e => { res := .error e, finalComposed := false }
        | .ok sizes =>
          -- the Go slice partSizes[:len(partSizes)-1] panics when empty
          if uploadedParts.isEmpty then
            { res := .error .slicePanic, finalComposed := false }
          else
            match firstSmallPart (sizes.dropLast.zip uploadedParts) with
            | some (pn, sz, et) =>
                { res := .error (.partTooSmall pn sz et),
                  finalComposed := false }
            | none =>
                -- lines 1086-1124: tiered composes, then the final compose
                if !env.composeOk then
                  { res := .error .composeErr, finalComposed := false }
                -- line 1126: cleanup of the upload prefix
                else if !env.cleanupOk then
                  { res := .error .cleanupErr, finalComposed := true }
                else { res := .ok (), finalComposed := true }

end Gcs

namespace Config

/-! ## C8 — the startup config validator

The validator (`cmd/config-current.go` `validateConfig`) is not under src/;
only its test `TestValidateConfig` is.  The model below follows the spec's
§4.8 rules, evaluated in order, and is checked against the test's vectors. -/

/-- Modelled from the spec: one configured notification target as seen by
its `Validate()` (§4.8 rule 6): whether it is enabled, whether its required
fields are filled, and its optional `format` field. -/
structure TargetConf where
  enabled : Bool
  requiredFilled : Bool
  format : Option String
  deriving DecidableEq, Repr

/-- Modelled from the spec: the JSON config document after parsing (§4.8,
§6 "Config file").  `wellFormed` and `noDupKeys` stand for rule 1. -/
structure ServerConfigDoc where
  wellFormed : Bool
  noDupKeys : Bool
  version : Option String
  browser : Option String
  credential : Option (String × String)
  region : Option String
  targets : List TargetConf
  deriving DecidableEq, Repr

/-- Validation failures, in the order the rules are evaluated. -/
inductive ConfigErr where
  | malformedJSON
  | duplicateKeys
  | badVersion
  | badBrowser
  | missingCredential
  | emptyAccessKey
  | emptySecretKey
  | badTarget
  deriving DecidableEq, Repr

/-- The effective configuration after validation, with the documented
defaults applied. -/
structure ValidConfig where
  region : String
  browser : String
  accessKey : String
  secretKey : String
  deriving DecidableEq, Repr

/-- Modelled from the spec: a target passes its `Validate()` when it is
disabled, or enabled with all required fields filled and any `format` field
among the accepted formats (`"namespace"`, `"access"`); `"invalid"` fails
(§4.8 rule 6). -/
def validTarget (t : TargetConf) : Bool :=
  !t.enabled ||
    (t.requiredFilled &&
      (match t.format with
       | none => true
       | some f => f = "namespace" || f = "access"))

/-- Modelled from the spec: the startup config validator, §4.8 rules 1-6
evaluated in order, first failure wins; `curVersion` is the server's current
schema version string. -/
def validateConfig (curVersion : String) (c : ServerConfigDoc) :
    Except ConfigErr ValidConfig :=
  if !c.wellFormed then .error .malformedJSON
  else if !c.noDupKeys then .error .duplicateKeys
  else if c.version ≠ some curVersion then .error .badVersion
  else if !(match c.browser with
            | none => true
            | some b => b = "on" || b = "off") then .error .badBrowser
  else
    match c.credential with
    | none => .error .missingCredential
    | some (ak, sk) =>
      if ak = "" then .error .emptyAccessKey
      else if sk = "" then .error .emptySecretKey
      else if !(c.targets.all validTarget) then .error .badTarget
      else .ok { region := c.region.getD "us-east-1",
                 browser := c.browser.getD "on",
                 accessKey := ak, secretKey := sk }

/-- Whether the validator accepted a document. -/
def accepts (r : Except ConfigErr ValidConfig) : Bool :=
  match r with
  | .ok _ => true
  | .error _ => false

end Config

namespace Minio

/-- Whether an `Except` value is an error. -/
def exceptIsErr : Except ObjErr Unit → Bool
  | .error _ => true
  | .ok _ => false

end Minio

/-! # Theorems -/

namespace Minio

/-! ## C1 -/

/-- C1 (counterexample): a `putObject` call on an absent key that fails at
the `fsMeta.WriteTo` step (fs-v1.go 936), after the rename has already
placed the object, returns an error yet leaves the new data file at
`<export>/<bucket>/<key>` — the key is not absent although it did not exist
before the call. -/
theorem putObject_failure_leaves_renamed_object :
    (putObject ⟨false, false, 2, 7, 5⟩
        ⟨true, false, true, true, true, some 2, true, false, true, false, false⟩
        ⟨true, none, none, none⟩).2 = .error .otherErr ∧
    (putObject ⟨false, false, 2, 7, 5⟩
        ⟨true, false, true, true, true, some 2, true, false, true, false, false⟩
        ⟨true, none, none, none⟩).1.dataFile = some 7 ∧
    (⟨true, none, none, none⟩ : FsState).dataFile = none := by
  decide

/-- Stage invariant of `putObjectPersistMeta`: the temp file and the data
file are untouched, and on an error the sidecar is removed (non-meta
bucket) or untouched (meta bucket). -/
theorem putObjectPersistMeta_spec (a : PutArgs) (e : PutEnv) (s : FsState) :
    (putObjectPersistMeta a e s).1.tmpFile = s.tmpFile ∧
    (exceptIsErr (putObjectPersistMeta a e s).2 = true →
      (a.isMetaBucket = false →
        (putObjectPersistMeta a e s).1.sidecar = none) ∧
      (a.isMetaBucket = true →
        (putObjectPersistMeta a e s).1.sidecar = s.sidecar)) ∧
    (putObjectPersistMeta a e s).1.dataFile = s.dataFile := by
  unfold putObjectPersistMeta
  cases hmb : a.isMetaBucket <;>
    split_ifs <;> simp_all [metaCleanup, exceptIsErr]

/-- Stage invariant of `putObjectRename`: afterwards no temp file remains;
on an error the sidecar is removed (non-meta bucket) or untouched (meta
bucket); the data file is unchanged unless the rename succeeded, in which
case it holds the new content. -/
theorem putObjectRename_spec (a : PutArgs) (e : PutEnv) (s : FsState) :
    (putObjectRename a e s).1.tmpFile = none ∧
    (exceptIsErr (putObjectRename a e s).2 = true →
      (a.isMetaBucket = false → (putObjectRename a e s).1.sidecar = none) ∧
      (a.isMetaBucket = true →
        (putObjectRename a e s).1.sidecar = s.sidecar)) ∧
    ((putObjectRename a e s).1.dataFile = s.dataFile ∨
      (e.renameOk = true ∧
        (putObjectRename a e s).1.dataFile = some a.content)) := by
  unfold putObjectRename
  split_ifs with h1 h2
  · cases hmb : a.isMetaBucket <;> simp_all [metaCleanup, exceptIsErr]
  · cases hmb : a.isMetaBucket <;> simp_all [metaCleanup, exceptIsErr]
  · have hp := putObjectPersistMeta_spec a e
      { s with dataFile := some a.content, tmpFile := none }
    refine ⟨by simp [hp.1], fun herr => ?_, ?_⟩
    · have := hp.2.1 herr
      exact ⟨fun hmb => by simpa using this.1 hmb,
             fun hmb => by simpa using this.2 hmb⟩
    · right
      exact ⟨by simpa using h2, by simp [hp.2.2]⟩

/-- Stage invariant of `putObjectWriteTemp`: same guarantees as
`putObjectRename_spec`, starting from the body write. -/
theorem putObjectWriteTemp_spec (a : PutArgs) (e : PutEnv) (s : FsState) :
    (putObjectWriteTemp a e s).1.tmpFile = none ∧
    (exceptIsErr (putObjectWriteTemp a e s).2 = true →
      (a.isMetaBucket = false →
        (putObjectWriteTemp a e s).1.sidecar = none) ∧
      (a.isMetaBucket = true →
        (putObjectWriteTemp a e s).1.sidecar = s.sidecar)) ∧
    ((putObjectWriteTemp a e s).1.dataFile = s.dataFile ∨
      (e.renameOk = true ∧
        (putObjectWriteTemp a e s).1.dataFile = some a.content)) := by
  cases hwb : e.writeTmpBytes with
  | none =>
    cases hmb : a.isMetaBucket <;>
      simp_all [putObjectWriteTemp, metaCleanup, exceptIsErr]
  | some written =>
    simp only [putObjectWriteTemp, hwb]
    split_ifs with h1
    · cases hmb : a.isMetaBucket <;> simp_all [metaCleanup, exceptIsErr]
    · have hr := putObjectRename_spec a e { s with tmpFile := some a.content }
      refine ⟨hr.1, fun herr => ?_, ?_⟩
      · have := hr.2.1 herr
        exact ⟨fun hmb => this.1 hmb, fun hmb => by simpa using this.2 hmb⟩
      · simpa using hr.2.2

/-- C1 (amended): every failed `putObject` leaves no temp file under
`<meta-tmp>/<serverUUID>/` and leaves the sidecar absent when it did not
pre-exist; the data file at the key is either unchanged or — when the
failure happened after the rename step — the fully written new content left
in place without rollback. -/
theorem putObject_failure_cleanup (a : PutArgs) (e : PutEnv) (s : FsState)
    (htmp : s.tmpFile = none)
    (herr : exceptIsErr (putObject a e s).2 = true) :
    (putObject a e s).1.tmpFile = none ∧
    (s.sidecar = none → (putObject a e s).1.sidecar = none) ∧
    ((putObject a e s).1.dataFile = s.dataFile ∨
      (e.renameOk = true ∧ (putObject a e s).1.dataFile = some a.content)) := by
  unfold putObject at herr ⊢
  split_ifs at herr ⊢
  all_goals try (simp_all; done)
  -- the two remaining branches run the write-temp pipeline, one per value
  -- of a.isMetaBucket
  all_goals
    first
      | (rename_i hmb
         have hw := putObjectWriteTemp_spec a e s
         refine ⟨hw.1, fun hsc => ?_, hw.2.2⟩
         rw [(hw.2.1 herr).2 hmb, hsc])
      | (rename_i hmb
         have hw := putObjectWriteTemp_spec a e
           { s with sidecar := some (s.sidecar.getD 0) }
         refine ⟨hw.1, fun hsc => ?_, by simpa using hw.2.2⟩
         exact (hw.2.1 herr).1 (by simpa using hmb))

/-- Witness for C1 (amended): the counterexample scenario — failure at the
metadata write after the rename — satisfies the amended property: no temp
remains, the sidecar is absent, and the data file holds the new content. -/
theorem putObject_failure_cleanup_witness :
    (putObject ⟨false, false, 2, 7, 5⟩
        ⟨true, false, true, true, true, some 2, false, false, true, false, false⟩
        ⟨true, none, none, none⟩).1.tmpFile = none ∧
    ((⟨true, none, none, none⟩ : FsState).sidecar = none →
      (putObject ⟨false, false, 2, 7, 5⟩
        ⟨true, false, true, true, true, some 2, false, false, true, false, false⟩
        ⟨true, none, none, none⟩).1.sidecar = none) ∧
    ((putObject ⟨false, false, 2, 7, 5⟩
        ⟨true, false, true, true, true, some 2, false, false, true, false, false⟩
        ⟨true, none, none, none⟩).1.dataFile =
        (⟨true, none, none, none⟩ : FsState).dataFile ∨
      ((⟨true, false, true, true, true, some 2, false, false, true, false,
          false⟩ : PutEnv).renameOk = true ∧
        (putObject ⟨false, false, 2, 7, 5⟩
          ⟨true, false, true, true, true, some 2, false, false, true, false,
            false⟩
          ⟨true, none, none, none⟩).1.dataFile = some 7)) :=
  putObject_failure_cleanup ⟨false, false, 2, 7, 5⟩
    ⟨true, false, true, true, true, some 2, false, false, true, false, false⟩
    ⟨true, none, none, none⟩ (by decide) (by decide)

/-! ## C2 -/

/-- Reading back the key just assigned in a Go map always yields the
assigned value. -/
theorem mapGet_mapSet_self (m : List (String × String)) (k v : String) :
    mapGet (mapSet m k v) k = some v := by
  simp [mapGet, mapSet, List.find?]

/-- C2: a successful metadata-only self-copy leaves the data file unchanged
(no write touches it), replaces the sidecar's `meta` by the caller-supplied
user metadata with the supplied etag stored under `"etag"`, and — since the
handler passes the source's stored etag as `srcInfo.ETag` — preserves the
stored etag whenever the supplied etag equals it. -/
theorem copyObjectMetadataOnly_frame (src : CopySrcInfo) (e : CopyMetaEnv)
    (s : CopyMetaState)
    (hok : ∃ et, (copyObjectMetadataOnly src e s).2 = .ok et) :
    (copyObjectMetadataOnly src e s).1.dataFile = s.dataFile ∧
    (copyObjectMetadataOnly src e s).1.sidecarMeta =
      some (mapSet src.userDefined "etag" src.etag) ∧
    (copyObjectMetadataOnly src e s).2 = .ok src.etag ∧
    (s.sidecarMeta.bind (fun m => mapGet m "etag") = some src.etag →
      (copyObjectMetadataOnly src e s).1.sidecarMeta.bind
          (fun m => mapGet m "etag") =
        s.sidecarMeta.bind (fun m => mapGet m "etag")) := by
  obtain ⟨wl, ro, wo⟩ := e
  obtain ⟨sbe, df, scm⟩ := s
  cases sbe <;> cases wl <;> cases ro <;> cases wo <;> cases df <;>
    cases scm <;>
    simp_all [copyObjectMetadataOnly, mapGet_mapSet_self]

/-- Witness for C2: a concrete metadata-only self-copy over a sidecar
storing etag `"abc"`, supplying the same etag and fresh user metadata. -/
theorem copyObjectMetadataOnly_frame_witness :
    (copyObjectMetadataOnly ⟨true, [("x-amz-meta-foo", "bar")], "abc"⟩
        ⟨true, true, true⟩
        ⟨true, some 9, some [("etag", "abc")]⟩).1.dataFile =
      (⟨true, some 9, some [("etag", "abc")]⟩ : CopyMetaState).dataFile ∧
    (copyObjectMetadataOnly ⟨true, [("x-amz-meta-foo", "bar")], "abc"⟩
        ⟨true, true, true⟩
        ⟨true, some 9, some [("etag", "abc")]⟩).1.sidecarMeta =
      some (mapSet [("x-amz-meta-foo", "bar")] "etag" "abc") ∧
    (copyObjectMetadataOnly ⟨true, [("x-amz-meta-foo", "bar")], "abc"⟩
        ⟨true, true, true⟩
        ⟨true, some 9, some [("etag", "abc")]⟩).2 = .ok "abc" ∧
    ((⟨true, some 9, some [("etag", "abc")]⟩ : CopyMetaState).sidecarMeta.bind
          (fun m => mapGet m "etag") = some "abc" →
      (copyObjectMetadataOnly ⟨true, [("x-amz-meta-foo", "bar")], "abc"⟩
          ⟨true, true, true⟩
          ⟨true, some 9, some [("etag", "abc")]⟩).1.sidecarMeta.bind
          (fun m => mapGet m "etag") =
        (⟨true, some 9, some [("etag", "abc")]⟩ :
          CopyMetaState).sidecarMeta.bind (fun m => mapGet m "etag")) :=
  copyObjectMetadataOnly_frame ⟨true, [("x-amz-meta-foo", "bar")], "abc"⟩
    ⟨true, true, true⟩ ⟨true, some 9, some [("etag", "abc")]⟩
    ⟨"abc", by decide⟩

/-! ## C3 -/

/-- C3 (counterexample): the two concrete copies `(b,x) → (b,y)` and
`(b,y) → (b,x)` acquire the same two lock keys in opposite orders, so there
is no single (antisymmetric) order on keys that all copies' lock
acquisitions follow. -/
theorem copyObject_no_total_order :
    ¬ ∃ r : String × String → String × String → Prop,
        (∀ a b, r a b → r b a → a = b) ∧
        acquiredInOrder r (copyObjectLockTrace "b" "x" "b" "y") ∧
        acquiredInOrder r (copyObjectLockTrace "b" "y" "b" "x") := by
  rintro ⟨r, hanti, h1, h2⟩
  have e1 : copyObjectLockTrace "b" "x" "b" "y" =
      [LockEvt.wLock "b" "y", LockEvt.rLock "b" "x"] := by decide
  have e2 : copyObjectLockTrace "b" "y" "b" "x" =
      [LockEvt.wLock "b" "x", LockEvt.rLock "b" "y"] := by decide
  rw [e1] at h1
  rw [e2] at h2
  simp only [acquiredInOrder, List.chain'_cons, List.chain'_singleton,
    LockEvt.key, and_true] at h1 h2
  exact absurd (hanti _ _ h1 h2) (by decide)

/-- C3 (amended): whenever the joined source and destination paths differ
(`cpSrcDstSame` is false), `CopyObject` acquires the destination write lock
strictly before the source read lock. -/
theorem copyObject_dst_lock_first (srcB srcK dstB dstK : String)
    (h : pathJoin srcB srcK ≠ pathJoin dstB dstK) :
    copyObjectLockTrace srcB srcK dstB dstK =
      [LockEvt.wLock dstB dstK, LockEvt.rLock srcB srcK] := by
  simp [copyObjectLockTrace, h]

/-- Witness for C3 (amended): a copy from `(b, x)` to `(b, y)`. -/
theorem copyObject_dst_lock_first_witness :
    copyObjectLockTrace "b" "x" "b" "y" =
      [LockEvt.wLock "b" "y", LockEvt.rLock "b" "x"] :=
  copyObject_dst_lock_first "b" "x" "b" "y" (by decide)

/-! ## C4 -/

/-- Evaluation lemma: a non-empty marker that does not start with the prefix
short-circuits `ListObjects` to the empty page with a nil error. -/
theorem listObjects_eval_marker (e : ListEnv) (pfx marker delim : String)
    (maxKeys : Int) (hargs : e.argsOk = true) (hm : marker ≠ "")
    (hpfx : hasPrefixStr marker pfx = false) :
    listObjects e pfx marker delim maxKeys = .ok {} := by
  simp [listObjects, hargs, hm, hpfx]

/-- C4: on an existing bucket with passing argument checks, (a) a `maxKeys`
that is negative or above 1000 behaves exactly as `maxKeys = 1000`;
(b) `maxKeys = 0` returns the empty page, whose `IsTruncated` is false; and
(c) delimiter and prefix both `"/"` return the empty result. -/
theorem listObjects_maxKeys_rules (e : ListEnv) (pfx marker delim : String)
    (maxKeys : Int) (hargs : e.argsOk = true)
    (hbucket : e.bucketExists = true) :
    ((maxKeys < 0 ∨ maxKeys > 1000) →
      listObjects e pfx marker delim maxKeys =
        listObjects e pfx marker delim 1000) ∧
    (listObjects e pfx marker delim 0 = .ok {} ∧
      ({} : ListObjectsInfo).isTruncated = false) ∧
    listObjects e "/" marker "/" maxKeys = .ok {} := by
  refine ⟨fun hmk => ?_, ⟨?_, rfl⟩, ?_⟩
  · have h0 : ¬(maxKeys = 0) := by rcases hmk with h | h <;> omega
    rcases Decidable.em (marker ≠ "" ∧ hasPrefixStr marker pfx = false)
      with hm | hm
    · rw [listObjects_eval_marker e pfx marker delim maxKeys hargs hm.1 hm.2,
        listObjects_eval_marker e pfx marker delim 1000 hargs hm.1 hm.2]
    · simp only [ne_eq] at hm
      simp [listObjects, hargs, hbucket, hm, h0, maxObjectList, hmk]
  · rcases Decidable.em (marker ≠ "" ∧ hasPrefixStr marker pfx = false)
      with hm | hm
    · exact listObjects_eval_marker e pfx marker delim 0 hargs hm.1 hm.2
    · simp only [ne_eq] at hm
      simp [listObjects, hargs, hbucket, hm]
  · rcases Decidable.em (marker ≠ "" ∧ hasPrefixStr marker "/" = false)
      with hm | hm
    · exact listObjects_eval_marker e "/" marker "/" maxKeys hargs hm.1 hm.2
    · simp only [ne_eq] at hm
      by_cases h0 : maxKeys = 0
      · simp [listObjects, hargs, hbucket, hm, h0]
      · simp [listObjects, hargs, hbucket, hm, h0]

/-- Witness for C4: an argument-valid call on an existing bucket, with an
overflowing `maxKeys = 2000` for the clamping part. -/
theorem listObjects_maxKeys_rules_witness :
    ((2000 : Int) < 0 ∨ (2000 : Int) > 1000) ∧
    (((2000 : Int) < 0 ∨ (2000 : Int) > 1000) →
      listObjects ⟨true, true, []⟩ "p" "" "" 2000 =
        listObjects ⟨true, true, []⟩ "p" "" "" 1000) ∧
    (listObjects ⟨true, true, []⟩ "p" "" "" 0 = .ok {} ∧
      ({} : ListObjectsInfo).isTruncated = false) ∧
    listObjects ⟨true, true, []⟩ "/" "" "/" 2000 = .ok {} :=
  ⟨by decide,
   (listObjects_maxKeys_rules ⟨true, true, []⟩ "p" "" "" 2000 rfl rfl).1,
   (listObjects_maxKeys_rules ⟨true, true, []⟩ "p" "" "" 2000 rfl rfl).2.1,
   (listObjects_maxKeys_rules ⟨true, true, []⟩ "p" "" "" 2000 rfl rfl).2.2⟩

/-! ## C10 -/

/-- C10: a `ListObjects` call with a non-empty marker that does not start
with the prefix returns the empty `ListObjectsInfo` (no objects, no common
prefixes, `IsTruncated = false`) with a nil error, for every bucket state
and walker stream — the filesystem is not consulted for entries. -/
theorem listObjects_marker_not_prefixed (e : ListEnv)
    (pfx marker delim : String) (maxKeys : Int) (hargs : e.argsOk = true)
    (hm : marker ≠ "") (hpfx : hasPrefixStr marker pfx = false) :
    listObjects e pfx marker delim maxKeys = .ok {} := by
  simp [listObjects, hargs, hm, hpfx]

/-- Witness for C10: marker `"z"` under prefix `"a"`, on an oracle whose
bucket is even absent and whose walker stream is non-empty — the result is
still the empty page. -/
theorem listObjects_marker_not_prefixed_witness :
    listObjects ⟨true, false, [WalkItem.entry "a1" false true true]⟩
      "a" "z" "" 5 = .ok {} :=
  listObjects_marker_not_prefixed
    ⟨true, false, [WalkItem.entry "a1" false true true]⟩ "a" "z" "" 5
    rfl (by decide) (by decide)

/-! ## C5 -/

/-- C5: when the first locked metadata read fails with `errCorruptedFormat`
or `io.EOF` and the escalation steps succeed, `GetObjectInfo` recreates the
sidecar as `createFsJSON` writes it — carrying the (spec-modelled) default
etag and, for keys with an extension, the content type inferred through the
MIME table with the `application/octet-stream` fallback — then re-reads
under the lock and returns that second read; the lock trace shows the
escalation to the object write lock between the two read locks. -/
theorem getObjectInfo_corrupt_recovery (e : GetObjInfoEnv)
    (st : GetInfoState) (object : String) (er : ObjErr)
    (hfirst : getObjectInfoWithLock e.rLockOk st object = .error er)
    (hcor : er = .corruptedFormat ∨ er = .eofError)
    (hw : e.wLockOk = true) (hc : e.createOk = true) :
    (GetObjectInfoOp e st object).1 =
      { st with sidecarFile := .parsed (createFsJSONMeta object) } ∧
    (GetObjectInfoOp e st object).2.1 =
      (match getObjectInfoWithLock e.rLock2Ok
          { st with sidecarFile := .parsed (createFsJSONMeta object) }
          object with
       | .ok v => .ok v
       | .error e2 => .error (toObjectErrBO e2)) ∧
    (createFsJSONMeta object).etag = defaultEtag ∧
    (pathExt object ≠ "" →
      (createFsJSONMeta object).contentType =
        some ((mimeLookup (((pathExt object).drop 1).toLower)).getD
          "application/octet-stream")) ∧
    (GetObjectInfoOp e st object).2.2 =
      (if e.rLockOk then [LockAcq.readLock] else []) ++ [LockAcq.writeLock]
        ++ (if e.rLock2Ok then [LockAcq.readLock] else []) := by
  have hct : pathExt object ≠ "" →
      (createFsJSONMeta object).contentType =
        some ((mimeLookup (((pathExt object).drop 1).toLower)).getD
          "application/octet-stream") := by
    intro hext
    simp only [createFsJSONMeta, inferContentType, hext, ne_eq,
      not_false_iff, if_true, ite_true]
    rcases hml : mimeLookup (((pathExt object).drop 1).toLower) with _ | ct <;>
      simp [hml]
  rcases hcor with rfl | rfl <;>
    exact ⟨by simp [GetObjectInfoOp, hfirst, hw, hc],
           by simp [GetObjectInfoOp, hfirst, hw, hc],
           rfl, hct,
           by simp [GetObjectInfoOp, hfirst, hw, hc]⟩

/-- Witness for C5: a key `a.txt` whose sidecar read fails with
`errCorruptedFormat`; the recovery rewrites the sidecar with the default
etag and `text/plain`, and the re-read returns it. -/
theorem getObjectInfo_corrupt_recovery_witness :
    (GetObjectInfoOp ⟨true, true, true, true⟩
        ⟨true, true, some 3, false, false, .parseFailed .corruptedFormat⟩
        "a.txt").1 =
      { (⟨true, true, some 3, false, false,
          .parseFailed .corruptedFormat⟩ : GetInfoState) with
        sidecarFile := .parsed (createFsJSONMeta "a.txt") } ∧
    (GetObjectInfoOp ⟨true, true, true, true⟩
        ⟨true, true, some 3, false, false, .parseFailed .corruptedFormat⟩
        "a.txt").2.1 =
      (match getObjectInfoWithLock true
          { (⟨true, true, some 3, false, false,
              .parseFailed .corruptedFormat⟩ : GetInfoState) with
            sidecarFile := .parsed (createFsJSONMeta "a.txt") }
          "a.txt" with
       | .ok v => .ok v
       | .error e2 => .error (toObjectErrBO e2)) ∧
    (createFsJSONMeta "a.txt").etag = defaultEtag ∧
    (pathExt "a.txt" ≠ "" →
      (createFsJSONMeta "a.txt").contentType =
        some ((mimeLookup (((pathExt "a.txt").drop 1).toLower)).getD
          "application/octet-stream")) ∧
    (GetObjectInfoOp ⟨true, true, true, true⟩
        ⟨true, true, some 3, false, false, .parseFailed .corruptedFormat⟩
        "a.txt").2.2 =
      (if true then [LockAcq.readLock] else []) ++ [LockAcq.writeLock] ++
        (if true then [LockAcq.readLock] else []) :=
  getObjectInfo_corrupt_recovery ⟨true, true, true, true⟩
    ⟨true, true, some 3, false, false, .parseFailed .corruptedFormat⟩
    "a.txt" .corruptedFormat (by decide) (Or.inl rfl) rfl rfl

end Minio

namespace Gcs

/-! ## C6 -/

/-- C6 (counterexample): a `gcs.json` whose version is `"2"` but whose
bucket and object match the request makes `CompleteMultipartUpload` fail
with `errGCSFormat` ("Unknown format"), which is not `InvalidUploadID` and
does not surface as the upload-not-found S3 code; the final object is not
composed. -/
theorem cmu_version_mismatch_not_invalid_upload :
    (completeMultipartUpload
        { metaAttrs := .ok 0, readerOk := true,
          decoded := some ⟨"2", "bkt", "obj"⟩,
          partAttrs := fun _ _ => .ok (5 * miByte),
          composeOk := true, cleanupOk := true }
        "bkt" "obj" "up1" [(1, "e1")]).res = .error .gcsFormatErr ∧
    (Except.error GcsErr.gcsFormatErr : Except GcsErr Unit) ≠
      .error (.invalidUploadID "up1") ∧
    s3Code .gcsFormatErr ≠ s3Code (.invalidUploadID "up1") ∧
    (completeMultipartUpload
        { metaAttrs := .ok 0, readerOk := true,
          decoded := some ⟨"2", "bkt", "obj"⟩,
          partAttrs := fun _ _ => .ok (5 * miByte),
          composeOk := true, cleanupOk := true }
        "bkt" "obj" "up1" [(1, "e1")]).finalComposed = false := by
  decide

/-- C6 (amended): with a readable sidecar, a version different from `"1"`
fails with the unknown-format error and a version `"1"` sidecar recording a
different bucket or object fails with `InvalidUploadID`; in both cases the
final object is not composed. -/
theorem cmu_sidecar_validation (env : CmuEnv) (bucket key uploadID : String)
    (parts : List (Nat × String)) (m : MultipartMetaV1) (sz : Int)
    (hattrs : env.metaAttrs = .ok sz) (hreader : env.readerOk = true)
    (hdec : env.decoded = some m) :
    (m.version ≠ gcsMinioMultipartMetaCurrentVersion →
      (completeMultipartUpload env bucket key uploadID parts).res =
        .error .gcsFormatErr ∧
      (completeMultipartUpload env bucket key uploadID parts).finalComposed
        = false) ∧
    (m.version = gcsMinioMultipartMetaCurrentVersion →
      (m.bucket ≠ bucket ∨ m.object ≠ key) →
      (completeMultipartUpload env bucket key uploadID parts).res =
        .error (.invalidUploadID uploadID) ∧
      (completeMultipartUpload env bucket key uploadID parts).finalComposed
        = false) := by
  constructor
  · intro hv
    simp [completeMultipartUpload, hattrs, hreader, hdec, hv]
  · intro hv hbk
    simp [completeMultipartUpload, hattrs, hreader, hdec, hv, hbk]

/-- Witness for C6 (amended): a sidecar recording bucket `b2` while the
request is for bucket `b1`. -/
theorem cmu_sidecar_validation_witness :
    ((⟨"1", "b2", "o"⟩ : MultipartMetaV1).version ≠
        gcsMinioMultipartMetaCurrentVersion →
      (completeMultipartUpload
          { metaAttrs := .ok 0, readerOk := true,
            decoded := some ⟨"1", "b2", "o"⟩,
            partAttrs := fun _ _ => .ok (5 * miByte),
            composeOk := true, cleanupOk := true }
          "b1" "o" "u7" [(1, "e1")]).res = .error .gcsFormatErr ∧
      (completeMultipartUpload
          { metaAttrs := .ok 0, readerOk := true,
            decoded := some ⟨"1", "b2", "o"⟩,
            partAttrs := fun _ _ => .ok (5 * miByte),
            composeOk := true, cleanupOk := true }
          "b1" "o" "u7" [(1, "e1")]).finalComposed = false) ∧
    ((⟨"1", "b2", "o"⟩ : MultipartMetaV1).version =
        gcsMinioMultipartMetaCurrentVersion →
      ((⟨"1", "b2", "o"⟩ : MultipartMetaV1).bucket ≠ "b1" ∨
        (⟨"1", "b2", "o"⟩ : MultipartMetaV1).object ≠ "o") →
      (completeMultipartUpload
          { metaAttrs := .ok 0, readerOk := true,
            decoded := some ⟨"1", "b2", "o"⟩,
            partAttrs := fun _ _ => .ok (5 * miByte),
            composeOk := true, cleanupOk := true }
          "b1" "o" "u7" [(1, "e1")]).res =
        .error (.invalidUploadID "u7") ∧
      (completeMultipartUpload
          { metaAttrs := .ok 0, readerOk := true,
            decoded := some ⟨"1", "b2", "o"⟩,
            partAttrs := fun _ _ => .ok (5 * miByte),
            composeOk := true, cleanupOk := true }
          "b1" "o" "u7" [(1, "e1")]).finalComposed = false) :=
  cmu_sidecar_validation
    { metaAttrs := .ok 0, readerOk := true,
      decoded := some ⟨"1", "b2", "o"⟩,
      partAttrs := fun _ _ => .ok (5 * miByte),
      composeOk := true, cleanupOk := true }
    "b1" "o" "u7" [(1, "e1")] ⟨"1", "b2", "o"⟩ 0 rfl rfl rfl

/-! ## C7 -/

/-- When some element of the size/part list is below 5 MiB, the linear scan
finds a (first) such element. -/
theorem firstSmallPart_mem (l : List (Int × Nat × String))
    (h : ∃ x ∈ l, x.1 < 5 * miByte) :
    ∃ pn sz et, firstSmallPart l = some (pn, sz, et) ∧ sz < 5 * miByte := by
  induction l with
  | nil => simp at h
  | cons a t ih =>
    obtain ⟨szA, pnA, etA⟩ := a
    by_cases ha : szA < 5 * miByte
    · exact ⟨pnA, szA, etA, by simp [firstSmallPart, ha], ha⟩
    · rcases h with ⟨x, hx, hxs⟩
      rcases List.mem_cons.mp hx with rfl | hxt
      · exact absurd hxs ha
      · rcases ih ⟨x, hxt, hxs⟩ with ⟨pn, sz, et, hf, hs⟩
        exact ⟨pn, sz, et, by simp [firstSmallPart, ha, hf], hs⟩

/-- C7: a `CompleteMultipartUpload` whose sidecar is valid and whose parts
all have readable attributes fails with `PartTooSmall` — surfaced as the S3
code `EntityTooSmall` — whenever some part other than the last has a stored
size below 5 MiB, and the final object is not composed. -/
theorem cmu_small_part_rejected (env : CmuEnv) (bucket key uploadID : String)
    (parts : List (Nat × String)) (m : MultipartMetaV1) (sz : Int)
    (sizes : List Int)
    (hattrs : env.metaAttrs = .ok sz) (hreader : env.readerOk = true)
    (hdec : env.decoded = some m)
    (hver : m.version = gcsMinioMultipartMetaCurrentVersion)
    (hbk : m.bucket = bucket) (hob : m.object = key)
    (hfetch : fetchPartSizes env uploadID parts = .ok sizes)
    (hne : parts ≠ [])
    (hsmall : ∃ x ∈ sizes.dropLast.zip parts, x.1 < 5 * miByte) :
    (∃ pn psz et,
      (completeMultipartUpload env bucket key uploadID parts).res =
        .error (.partTooSmall pn psz et) ∧ psz < 5 * miByte ∧
      s3Code (.partTooSmall pn psz et) = "EntityTooSmall") ∧
    (completeMultipartUpload env bucket key uploadID parts).finalComposed =
      false := by
  rcases firstSmallPart_mem (sizes.dropLast.zip parts) hsmall
    with ⟨pn, psz, et, hf, hs⟩
  have hie : parts.isEmpty = false := by
    cases parts <;> simp_all
  have hres : completeMultipartUpload env bucket key uploadID parts =
      { res := .error (.partTooSmall pn psz et), finalComposed := false } := by
    simp [completeMultipartUpload, hattrs, hreader, hdec, hver, hbk, hob,
      hfetch, hie, hf]
  exact ⟨⟨pn, psz, et, by rw [hres], hs, rfl⟩, by rw [hres]⟩

/-- Witness for C7: two parts whose first has size 100 bytes. -/
theorem cmu_small_part_rejected_witness :
    (∃ pn psz et,
      (completeMultipartUpload
          { metaAttrs := .ok 0, readerOk := true,
            decoded := some ⟨"1", "b", "o"⟩,
            partAttrs := fun _ _ => .ok 100,
            composeOk := true, cleanupOk := true }
          "b" "o" "u" [(1, "x"), (2, "y")]).res =
        .error (.partTooSmall pn psz et) ∧ psz < 5 * miByte ∧
      s3Code (.partTooSmall pn psz et) = "EntityTooSmall") ∧
    (completeMultipartUpload
        { metaAttrs := .ok 0, readerOk := true,
          decoded := some ⟨"1", "b", "o"⟩,
          partAttrs := fun _ _ => .ok 100,
          composeOk := true, cleanupOk := true }
        "b" "o" "u" [(1, "x"), (2, "y")]).finalComposed = false :=
  cmu_small_part_rejected
    { metaAttrs := .ok 0, readerOk := true,
      decoded := some ⟨"1", "b", "o"⟩,
      partAttrs := fun _ _ => .ok 100,
      composeOk := true, cleanupOk := true }
    "b" "o" "u" [(1, "x"), (2, "y")] ⟨"1", "b", "o"⟩ 0 [100, 100]
    rfl rfl rfl rfl rfl rfl (by decide) (by decide) (by decide)

end Gcs

namespace Config

/-! ## C8 -/

/-- The validator model reproduces the decisions of tests 3-10, 19, 20 and
27 of `TestValidateConfig` (src/unnamed/part_000), shown here for a current
schema version `"33"`. -/
theorem validateConfig_test_vectors :
    accepts (validateConfig "33"
      ⟨true, true, some "10", none, none, none, []⟩) = false ∧
    accepts (validateConfig "33"
      ⟨true, true, some "33", some "foo", none, none, []⟩) = false ∧
    accepts (validateConfig "33"
      ⟨true, true, some "33", some "on", none, none, []⟩) = false ∧
    accepts (validateConfig "33"
      ⟨true, true, some "33", some "on", some ("minio", ""), none, []⟩) =
      false ∧
    validateConfig "33"
      ⟨true, true, some "33", some "on", some ("minio", "minio123"), none,
        []⟩ = .ok ⟨"us-east-1", "on", "minio", "minio123"⟩ ∧
    validateConfig "33"
      ⟨true, true, some "33", none, some ("minio", "minio123"),
        some "us-east-1", []⟩ =
      .ok ⟨"us-east-1", "on", "minio", "minio123"⟩ ∧
    accepts (validateConfig "33"
      ⟨true, true, some "33", some "on", some ("minio", "minio123"),
        some "us-east-1", []⟩) = true ∧
    accepts (validateConfig "33"
      ⟨true, false, some "33", some "on", some ("minio", "minio123"),
        some "us-east-1", []⟩) = false ∧
    accepts (validateConfig "33"
      ⟨true, true, some "33", some "on", some ("minio", "minio123"),
        some "us-east-1", [⟨true, true, some "invalid"⟩]⟩) = false ∧
    accepts (validateConfig "33"
      ⟨true, true, some "33", some "on", some ("minio", "minio123"),
        some "us-east-1", [⟨true, true, some "namespace"⟩]⟩) = true ∧
    accepts (validateConfig "33"
      ⟨true, true, some "33", some "on", some ("minio", "minio123"),
        some "us-east-1", [⟨true, false, none⟩]⟩) = false := by
  decide

/-- C8: for a well-formed, duplicate-free document with no notification
targets, the validator accepts exactly when the version equals the current
schema version, any present browser field is `"on"` or `"off"`, and a
credential with non-empty access and secret keys is present; an accepted
document gets region `"us-east-1"` when the region is absent and browser
`"on"` when the browser is absent. -/
theorem validateConfig_rules (curVersion : String) (c : ServerConfigDoc)
    (hwf : c.wellFormed = true) (hdup : c.noDupKeys = true)
    (htg : c.targets = []) :
    ((∃ v, validateConfig curVersion c = .ok v) ↔
      (c.version = some curVersion ∧
       (c.browser = none ∨ c.browser = some "on" ∨ c.browser = some "off") ∧
       ∃ ak sk, c.credential = some (ak, sk) ∧ ak ≠ "" ∧ sk ≠ "")) ∧
    (∀ v, validateConfig curVersion c = .ok v →
      v.region = c.region.getD "us-east-1" ∧
      v.browser = c.browser.getD "on") := by
  obtain ⟨wf, dup, ver, br, cred, reg, tg⟩ := c
  dsimp only at hwf hdup htg ⊢
  subst hwf; subst hdup; subst htg
  constructor
  · constructor
    · rintro ⟨v, hv⟩
      rcases cred with _ | ⟨ak, sk⟩ <;> rcases br with _ | b <;>
        simp only [validateConfig] at hv <;>
        split_ifs at hv <;> simp_all <;>
        first
          | exact ⟨ak, sk, ⟨rfl, rfl⟩, ‹¬ak = ""›, ‹¬sk = ""›⟩
          | (refine ⟨?_, ak, sk, ⟨rfl, rfl⟩, ‹¬ak = ""›, ‹¬sk = ""›⟩
             by_cases hbon : b = "on"
             · exact Or.inl hbon
             · exact Or.inr (‹¬b = "on" → b = "off"› hbon))
    · rintro ⟨hver, hbr, ak, sk, hcred, hak, hsk⟩
      subst hcred; subst hver
      rcases hbr with hbr | hbr | hbr <;> subst hbr
      · exact ⟨⟨reg.getD "us-east-1", "on", ak, sk⟩,
          by simp [validateConfig, hak, hsk]⟩
      · exact ⟨⟨reg.getD "us-east-1", "on", ak, sk⟩,
          by simp [validateConfig, hak, hsk]⟩
      · exact ⟨⟨reg.getD "us-east-1", "off", ak, sk⟩,
          by simp [validateConfig, hak, hsk]⟩
  · intro v hv
    rcases cred with _ | ⟨ak, sk⟩ <;> rcases br with _ | b <;>
      simp only [validateConfig] at hv <;>
      split_ifs at hv <;> (try simp_all) <;>
      (subst hv; exact ⟨rfl, rfl⟩)

/-- Witness for C8: the document of test 7 — version matching, browser on,
credential filled, region absent — is accepted with region defaulted to
`us-east-1`. -/
theorem validateConfig_rules_witness :
    ((∃ v, validateConfig "33"
        ⟨true, true, some "33", some "on", some ("minio", "minio123"), none,
          []⟩ = .ok v) ↔
      ((⟨true, true, some "33", some "on", some ("minio", "minio123"), none,
          []⟩ : ServerConfigDoc).version = some "33" ∧
       ((⟨true, true, some "33", some "on", some ("minio", "minio123"),
          none, []⟩ : ServerConfigDoc).browser = none ∨
        (⟨true, true, some "33", some "on", some ("minio", "minio123"),
          none, []⟩ : ServerConfigDoc).browser = some "on" ∨
        (⟨true, true, some "33", some "on", some ("minio", "minio123"),
          none, []⟩ : ServerConfigDoc).browser = some "off") ∧
       ∃ ak sk, (⟨true, true, some "33", some "on",
          some ("minio", "minio123"), none, []⟩ :
            ServerConfigDoc).credential = some (ak, sk) ∧
         ak ≠ "" ∧ sk ≠ "")) ∧
    (∀ v, validateConfig "33"
        ⟨true, true, some "33", some "on", some ("minio", "minio123"), none,
          []⟩ = .ok v →
      v.region = (⟨true, true, some "33", some "on",
          some ("minio", "minio123"), none, []⟩ :
            ServerConfigDoc).region.getD "us-east-1" ∧
      v.browser = (⟨true, true, some "33", some "on",
          some ("minio", "minio123"), none, []⟩ :
            ServerConfigDoc).browser.getD "on") :=
  validateConfig_rules "33"
    ⟨true, true, some "33", some "on", some ("minio", "minio123"), none, []⟩
    rfl rfl rfl

end Config

namespace Minio

/-! ## C9 -/

/-- C9 (counterexample): `MakeBucketWithLocation` with the empty bucket name
is rejected by the S3 name check with `BucketNameInvalid` — not with the
volume-not-found error (`errVolumeNotFound` / its `BucketNotFound` mapping)
that the claim states — though still before any path is touched. -/
theorem makeBucket_empty_name_not_volume_not_found :
    makeBucketResolve true true "/export" "" =
      (.error .bucketNameInvalid, false) ∧
    (Except.error ObjErr.bucketNameInvalid : Except ObjErr Unit) ≠
      .error .volumeNotFound ∧
    (Except.error ObjErr.bucketNameInvalid : Except ObjErr Unit) ≠
      .error .bucketNotFound := by
  decide

/-- C9 (amended): a bucket name equal to `""`, `"."` or `".."` is rejected
before any path under the export root is touched by every resolving
operation: `MakeBucketWithLocation` rejects it with `BucketNameInvalid`
(its S3 name check precedes `getBucketDir`), and the other operations
reject it with the volume-not-found error of `getBucketDir`, surfaced as
`BucketNotFound`. -/
theorem invalid_bucket_names_rejected (fsPath bucket : String)
    (dirExists mkdirOk : Bool)
    (hb : bucket = "" ∨ bucket = "." ∨ bucket = "..") :
    makeBucketResolve true mkdirOk fsPath bucket =
      (.error .bucketNameInvalid, false) ∧
    getBucketInfoResolve true dirExists fsPath bucket =
      (.error .bucketNotFound, false) ∧
    deleteBucketResolve true fsPath bucket =
      (.error .bucketNotFound, false) ∧
    putObjectResolve true dirExists fsPath bucket =
      (.error .bucketNotFound, false) ∧
    getObjectResolve true dirExists fsPath bucket =
      (.error .bucketNotFound, false) ∧
    getObjectInfoResolve true dirExists fsPath bucket =
      (.error .bucketNotFound, false) ∧
    deleteObjectResolve true dirExists fsPath bucket =
      (.error .bucketNotFound, false) ∧
    (∀ pfx marker, listObjectsResolve dirExists fsPath bucket pfx marker =
      (.error .bucketNotFound, false)) := by
  have hv1 : isValidBucketName "" = false := by decide
  have hv2 : isValidBucketName "." = false := by decide
  have hv3 : isValidBucketName ".." = false := by decide
  rcases hb with rfl | rfl | rfl <;>
    simp [makeBucketResolve, getBucketInfoResolve, deleteBucketResolve,
      putObjectResolve, getObjectResolve, getObjectInfoResolve,
      deleteObjectResolve, listObjectsResolve, checkArgsBucketExist,
      statBucketDirT, getBucketDir, toObjectErrB, hv1, hv2, hv3]

/-- Witness for C9 (amended): the bucket name `".."` on a concrete export
path. -/
theorem invalid_bucket_names_rejected_witness :
    makeBucketResolve true true "/export" ".." =
      (.error .bucketNameInvalid, false) ∧
    getBucketInfoResolve true true "/export" ".." =
      (.error .bucketNotFound, false) ∧
    deleteBucketResolve true "/export" ".." =
      (.error .bucketNotFound, false) ∧
    putObjectResolve true true "/export" ".." =
      (.error .bucketNotFound, false) ∧
    getObjectResolve true true "/export" ".." =
      (.error .bucketNotFound, false) ∧
    getObjectInfoResolve true true "/export" ".." =
      (.error .bucketNotFound, false) ∧
    deleteObjectResolve true true "/export" ".." =
      (.error .bucketNotFound, false) ∧
    (∀ pfx marker, listObjectsResolve true "/export" ".." pfx marker =
      (.error .bucketNotFound, false)) :=
  invalid_bucket_names_rejected "/export" ".." true true
    (Or.inr (Or.inr rfl))

end Minio
